import Mathlib

/-!
Verification of the assessment scoring / risk-classification core of
`streamlit_app.py` (AnalyseMe housing support assessment service).

The Python source is shallowly embedded below:

* `Question`, `QUESTIONS`       — the static question catalog (source lines 480-675)
* `alookup`                     — association-list lookup, modelling Python dict access
* `get_risk_band`               — source lines 1036-1042
* `stepQuestion`, `scoreAnswers`, `build_llm_payload` — the scoring loop of
  `build_llm_payload` (source lines 1045-1108)
* `get_fallback_response`       — source lines 1351-1403
* `bedrock_http_call`, `call_bedrock_claude`, `completeAssessment`,
  `retryAssessment`             — the enrichment pipeline and its result handling
  (source lines 1116-1192, 1631-1650, 1674-1685)
* `extract_greeting_src`, `extract_support_links`, `rendered_links` — the
  salvage logic of `render_results` (source lines 1716-1755)
* `generate_reference`          — source lines 1111-1113

Notes on the embedding:

* Python `dict`s are modelled as association lists with first-match lookup
  (`alookup`); dict insertion order is list order.
* The float risk-flag threshold `score > weight * 0.6` of the source is
  modelled by the exact integer inequality `10 * score > 6 * weight`.  For
  every `(score, weight)` pair reachable from the shipped catalog the two
  comparisons agree: the products `weight * 0.6` for the weights
  20, 25, 15, 10, 5, 3, 2 evaluate in IEEE double precision to
  12.0, 15.0, 9.0, 6.0, 3.0, 1.7999999999999998, 1.2000000000000002, and no
  integer option score lies between any of those doubles and the exact
  rational `weight * 3/5`.
* `datetime.now()` timestamps are wall-clock effects and are not part of the
  embedded payload; no claim under proof mentions the timestamp field.
* `str.startswith` is modelled by `pyStartsWith` (char-list prefix test).
-/

/-- One question of the static catalog: id, prompt, weight, ordered
label-to-score option map, and advisory risk keywords. -/
structure Question where
  id : String
  prompt : String
  weight : Nat
  options : List (String × Nat)
  risk_keywords : List String
deriving DecidableEq

/-- An answer set: mapping from question id to the selected option label
(Python dict, modelled as an association list). -/
abbrev AnswerSet := List (String × String)

/-- First-match association-list lookup; models Python `d[k]` / `k in d`. -/
def alookup {α : Type} : List (String × α) → String → Option α
  | [], _ => none
  | (k, v) :: rest, key => if k = key then some v else alookup rest key

/-- Models Python `s.startswith(p)`. -/
def pyStartsWith (s p : String) : Bool := p.data.isPrefixOf s.data

def housing_stability_q : Question :=
  { id := "housing_stability"
  , prompt := "Can you tell me a bit about how secure or stable your current living situation feels?"
  , weight := 20
  , options :=
      [ ("Very secure - I have stable, long-term housing", 0)
      , ("Fairly secure - but some uncertainty", 4)
      , ("Uncertain - my situation could change soon", 10)
      , ("Unstable - I may lose my home in the coming weeks", 16)
      , ("Crisis - I am homeless or about to be", 20) ]
  , risk_keywords :=
      ["eviction", "homeless", "rough sleeping", "temporary", "sofa surfing", "notice"] }

def financial_pressure_q : Question :=
  { id := "financial_pressure"
  , prompt := "How are finances affecting your day-to-day life — do money pressures feel overwhelming right now?"
  , weight := 25
  , options :=
      [ ("Finances are comfortable - no concerns", 0)
      , ("Managing okay - occasional tight moments", 5)
      , ("Struggling - frequently worried about money", 12)
      , ("Severe pressure - behind on essential bills", 19)
      , ("Crisis - cannot afford basic needs, facing debt action", 25) ]
  , risk_keywords :=
      ["debt", "arrears", "benefits", "universal credit", "income", "unemployed", "bills"] }

def health_work_impact_q : Question :=
  { id := "health_work_impact"
  , prompt := "Do you have any health conditions or disabilities that affect your ability to work or could put pressure on your finances?"
  , weight := 15
  , options :=
      [ ("No - my health doesn\x27t affect my ability to work", 0)
      , ("Minor impact - I can work with some adjustments", 3)
      , ("Moderate impact - limits the work I can do", 7)
      , ("Significant impact - unable to work full-time", 11)
      , ("Severe - unable to work due to health/disability", 15) ]
  , risk_keywords :=
      ["disability", "unable to work", "PIP", "ESA", "long-term sick", "chronic illness", "limited capability"] }

def mental_health_q : Question :=
  { id := "mental_health"
  , prompt := "Would you like to talk about your mental health or emotional wellbeing?"
  , weight := 10
  , options :=
      [ ("I\x27m doing well emotionally", 0)
      , ("Some stress but coping okay", 2)
      , ("Struggling - anxiety, low mood affecting me", 5)
      , ("Significant difficulties - impacting daily life", 7)
      , ("In crisis - need urgent mental health support", 10) ]
  , risk_keywords :=
      ["mental health", "depression", "anxiety", "stress", "suicidal", "crisis"] }

def abuse_safety_q : Question :=
  { id := "abuse_safety"
  , prompt := "Have you experienced situations, like abuse or violence, that impact your safety or stability?"
  , weight := 10
  , options :=
      [ ("No - I feel safe", 0)
      , ("Past experiences - but currently safe", 3)
      , ("Some concerns about safety", 6)
      , ("Currently experiencing abuse or control", 8)
      , ("In immediate danger - need to leave", 10) ]
  , risk_keywords :=
      ["domestic abuse", "violence", "fleeing", "refuge", "controlling", "fear"] }

def care_leaver_q : Question :=
  { id := "care_leaver"
  , prompt := "Are you preparing to leave care services, or have you recently transitioned out of them?"
  , weight := 5
  , options :=
      [ ("This doesn\x27t apply to me", 0)
      , ("Left care several years ago", 1)
      , ("Left care in the past 2-3 years", 2)
      , ("Recently left care (within 12 months)", 4)
      , ("Currently preparing to leave care", 5) ]
  , risk_keywords :=
      ["care leaver", "foster care", "looked after", "leaving care", "personal adviser"] }

def institutional_discharge_q : Question :=
  { id := "institutional_discharge"
  , prompt := "Have you recently left prison or another institution, and are you adjusting to life outside?"
  , weight := 5
  , options :=
      [ ("This doesn\x27t apply to me", 0)
      , ("Left an institution over a year ago", 1)
      , ("Left within the past year", 2)
      , ("Recently released (past 3 months)", 4)
      , ("Just released / about to be released", 5) ]
  , risk_keywords :=
      ["prison", "hospital discharge", "rehabilitation", "probation", "resettlement"] }

def benefits_access_q : Question :=
  { id := "benefits_access"
  , prompt := "Do you feel confident about the benefits or entitlements you can access, or would support help?"
  , weight := 5
  , options :=
      [ ("Yes - I receive everything I\x27m entitled to", 0)
      , ("Mostly - but might be missing something", 1)
      , ("Unsure - I don\x27t know what I can claim", 3)
      , ("Struggling to access benefits I need", 4)
      , ("Benefits stopped or refused - need urgent help", 5) ]
  , risk_keywords :=
      ["benefits", "universal credit", "PIP", "housing benefit", "sanctions", "appeal"] }

def support_network_q : Question :=
  { id := "support_network"
  , prompt := "Who do you feel you can rely on right now — family, friends, or community networks?"
  , weight := 3
  , options :=
      [ ("Strong support network - family and friends", 0)
      , ("Some support available", 1)
      , ("Limited support - one or two people", 2)
      , ("Very little support - mostly alone", 2)
      , ("No support - completely isolated", 3) ]
  , risk_keywords :=
      ["isolated", "alone", "no family", "estranged", "breakdown"] }

def service_interest_q : Question :=
  { id := "service_interest"
  , prompt := "Would it be useful if I showed you local and national services that match your needs?"
  , weight := 2
  , options :=
      [ ("Not needed right now - just exploring", 0)
      , ("Maybe - would like to know what\x27s available", 1)
      , ("Yes - I\x27d like some guidance", 1)
      , ("Definitely - I need help finding services", 2)
      , ("Urgent - I need immediate support connections", 2) ]
  , risk_keywords := [] }

/-- The shipped question catalog (`QUESTIONS`, source lines 480-673). -/
def QUESTIONS : List Question :=
  [ housing_stability_q
  , financial_pressure_q
  , health_work_impact_q
  , mental_health_q
  , abuse_safety_q
  , care_leaver_q
  , institutional_discharge_q
  , benefits_access_q
  , support_network_q
  , service_interest_q ]

/-- The startup catalog validation: the module-level
`assert sum(q["weight"] for q in QUESTIONS) == 100` at source line 675.
This is the ONLY check the source runs against the catalog. -/
def validateCatalog (qs : List Question) : Bool :=
  (qs.map Question.weight).sum == 100


/-! ## Scoring engine and risk classifier (source lines 1036-1108) -/

/-- One entry of `category_scores`: `{"score": ..., "max": ..., "answer": ...}`. -/
structure CategoryScore where
  score : Nat
  max : Nat
  answer : String
deriving DecidableEq

/-- One entry of `risk_flags`:
`{"category": ..., "concern": ..., "response": ..., "keywords": ...}`. -/
structure RiskFlag where
  category : String
  concern : String
  response : String
  keywords : List String
deriving DecidableEq

/-- The running state of the scoring loop of `build_llm_payload`. -/
structure ScoreState where
  total : Nat
  category_scores : List (String × CategoryScore)
  risk_flags : List RiskFlag
  crisis : Bool
deriving DecidableEq

/-- One iteration of the `for q in QUESTIONS` loop of `build_llm_payload`
(source lines 1051-1081).  The float threshold `score > q["weight"] * 0.6`
is rendered as `10 * score > 6 * q.weight`; see the header note. -/
def stepQuestion (responses : AnswerSet) (s : ScoreState) (q : Question) : ScoreState :=
  match alookup responses q.id with
  | none => s
  | some answer =>
    match alookup q.options answer with
    | none => s
    | some score =>
      { total := s.total + score
      , category_scores := s.category_scores ++ [(q.id, ⟨score, q.weight, answer⟩)]
      , risk_flags :=
          if 10 * score > 6 * q.weight then
            s.risk_flags ++ [⟨q.id, q.prompt, answer, q.risk_keywords⟩]
          else s.risk_flags
      , crisis := s.crisis
          || (q.id == "housing_stability"
              && (pyStartsWith answer "Unstable" || pyStartsWith answer "Crisis"))
          || (q.id == "abuse_safety" && pyStartsWith answer "In immediate danger")
          || (q.id == "mental_health" && pyStartsWith answer "In crisis") }

/-- The whole scoring loop: fold `stepQuestion` over the catalog starting from
`total_score = 0`, empty `category_scores` / `risk_flags`, `crisis_override = False`. -/
def scoreAnswers (responses : AnswerSet) : ScoreState :=
  QUESTIONS.foldl (stepQuestion responses) ⟨0, [], [], false⟩

/-- `get_risk_band` (source lines 1036-1042): returns
`(risk_level, css_class, risk_description, recommended_response_time)`. -/
def get_risk_band (score : Nat) : String × String × String × String :=
  if score ≥ 60 then
    ("HIGH", "risk-high", "Urgent intervention recommended", "Within 24 hours")
  else if score ≥ 35 then
    ("MEDIUM", "risk-medium", "Priority support pathway", "Within 3 working days")
  else
    ("LOW", "risk-low", "Standard support pathway", "Within 10 working days")

/-- The fixed `request` block of the payload. -/
structure RequestFlags where
  generate_support_links : Bool
  generate_risk_summary : Bool
  locale : String
deriving DecidableEq

/-- The `assessment` block of the payload. -/
structure Assessment where
  total_score : Nat
  max_score : Nat
  risk_level : String
  risk_description : String
  recommended_response_time : String
deriving DecidableEq

/-- The assessment payload (the dict returned by `build_llm_payload`,
source lines 1090-1108).  The wall-clock `timestamp` field is omitted from
the embedding (see header note). -/
structure Payload where
  reference : String
  assessment : Assessment
  category_scores : List (String × CategoryScore)
  risk_flags : List RiskFlag
  additional_context : String
  request : RequestFlags
deriving DecidableEq

/-- `build_llm_payload` (source lines 1045-1108): scoring loop, base band from
`get_risk_band`, then the crisis override replacing a non-HIGH band. -/
def build_llm_payload (responses : AnswerSet) (additional_context : String)
    (reference : String) : Payload :=
  let s := scoreAnswers responses
  let band := get_risk_band s.total
  let riskTriple :=
    if s.crisis && !(band.1 == "HIGH") then
      ("HIGH", "Crisis indicators present – urgent intervention recommended",
       "Within 24 hours")
    else
      (band.1, band.2.2.1, band.2.2.2)
  { reference := reference
  , assessment :=
      { total_score := s.total
      , max_score := 100
      , risk_level := riskTriple.1
      , risk_description := riskTriple.2.1
      , recommended_response_time := riskTriple.2.2 }
  , category_scores := s.category_scores
  , risk_flags := s.risk_flags
  , additional_context := additional_context
  , request := ⟨true, true, "en-GB"⟩ }

/-! ## Per-question projections of the scoring loop

The loop state after one question is its state before plus a per-question
contribution; these four functions name the contributions, and
`stepQuestion_eq` / `foldl_stepQuestion` factor the fold through them. -/

/-- Numeric contribution of one question: the selected option score when the
question is answered with a recognized label, else 0. -/
def qScore (r : AnswerSet) (q : Question) : Nat :=
  match alookup r q.id with
  | none => 0
  | some answer =>
    match alookup q.options answer with
    | none => 0
    | some score => score

/-- `category_scores` contribution of one question. -/
def qCat (r : AnswerSet) (q : Question) : Option (String × CategoryScore) :=
  match alookup r q.id with
  | none => none
  | some answer =>
    match alookup q.options answer with
    | none => none
    | some score => some (q.id, ⟨score, q.weight, answer⟩)

/-- `risk_flags` contribution of one question. -/
def qFlag (r : AnswerSet) (q : Question) : Option RiskFlag :=
  match alookup r q.id with
  | none => none
  | some answer =>
    match alookup q.options answer with
    | none => none
    | some score =>
      if 10 * score > 6 * q.weight then some ⟨q.id, q.prompt, answer, q.risk_keywords⟩
      else none

/-- `crisis_override` contribution of one question. -/
def qCrisis (r : AnswerSet) (q : Question) : Bool :=
  match alookup r q.id with
  | none => false
  | some answer =>
    match alookup q.options answer with
    | none => false
    | some _ =>
      (q.id == "housing_stability"
        && (pyStartsWith answer "Unstable" || pyStartsWith answer "Crisis"))
      || (q.id == "abuse_safety" && pyStartsWith answer "In immediate danger")
      || (q.id == "mental_health" && pyStartsWith answer "In crisis")

/-! ## Spec reference definitions (for the refinement claims)

These definitions follow the wording of the specification, to be compared
with the source-derived definitions above. -/

/-- Spec base thresholds: `total >= 60 → HIGH`, `35 <= total < 60 → MEDIUM`,
`total < 35 → LOW`, each with its fixed description / response-time pair. -/
def spec_band (total : Nat) : String × String × String :=
  if total ≥ 60 then
    ("HIGH", "Urgent intervention recommended", "Within 24 hours")
  else if total ≥ 35 then
    ("MEDIUM", "Priority support pathway", "Within 3 working days")
  else
    ("LOW", "Standard support pathway", "Within 10 working days")

/-- The crisis trigger exactly as the claim states it: scan the RAW answers
for the three category/label prefix matches, with no requirement that the
label be a valid option of the question. -/
def spec_crisis_raw (r : AnswerSet) : Bool :=
  (match alookup r "housing_stability" with
   | some a => pyStartsWith a "Unstable" || pyStartsWith a "Crisis"
   | none => false)
  || (match alookup r "abuse_safety" with
      | some a => pyStartsWith a "In immediate danger"
      | none => false)
  || (match alookup r "mental_health" with
      | some a => pyStartsWith a "In crisis"
      | none => false)

/-- A single spec trigger scan restricted to recognized labels: the category
is answered AND the label is a valid option AND the prefix predicate holds. -/
def triggerScan (r : AnswerSet) (q : Question) (pred : String → Bool) : Bool :=
  match alookup r q.id with
  | none => false
  | some a => (alookup q.options a).isSome && pred a

/-- The amended crisis trigger: OR of the three scans over recognized labels. -/
def spec_crisis_valid (r : AnswerSet) : Bool :=
  triggerScan r housing_stability_q
      (fun a => pyStartsWith a "Unstable" || pyStartsWith a "Crisis")
  || triggerScan r abuse_safety_q (fun a => pyStartsWith a "In immediate danger")
  || triggerScan r mental_health_q (fun a => pyStartsWith a "In crisis")

/-- Spec classifier: base band from the thresholds; if the crisis trigger
fired and the base band is not already HIGH, force HIGH with the crisis
description and 24-hour response time. -/
def spec_classify (total : Nat) (crisis : Bool) : String × String × String :=
  let base := spec_band total
  if crisis && !(base.1 == "HIGH") then
    ("HIGH", "Crisis indicators present – urgent intervention recommended",
     "Within 24 hours")
  else base

/-- Spec RiskFlag rule: emitted when the recognized option's score strictly
exceeds six tenths of the question weight (exact rational comparison);
carries the category id, the prompt as concern text, the answer label and
the risk keywords. -/
def spec_flag (r : AnswerSet) (q : Question) : Option RiskFlag :=
  match alookup r q.id with
  | none => none
  | some answer =>
    match alookup q.options answer with
    | none => none
    | some score =>
      if ((6 : ℚ) / 10) * (q.weight : ℚ) < (score : ℚ) then
        some ⟨q.id, q.prompt, answer, q.risk_keywords⟩
      else none

/-- C1 counterexample: the label "Unstable" matches the claim's
housing-stability crisis prefix but is not a valid option of the question,
so the code ignores the answer entirely: total 0, band LOW, no override —
whereas the claim (whose trigger scans the raw answers) would force HIGH. -/
def rawCrisisAnswers : AnswerSet := [("housing_stability", "Unstable")]

/-- Scenario C of the spec: only `financial_pressure` answered, with the
19-point option. -/
def scenarioC_answers : AnswerSet :=
  [("financial_pressure", "Severe pressure - behind on essential bills")]

/-- Remove every entry for key `k`: the "question left unanswered" variant. -/
def eraseKey (k : String) (r : AnswerSet) : AnswerSet :=
  r.filter (fun p => !(p.1 == k))

/-- An answer set holding one entry whose label is not a valid option. -/
def invalidLabelAnswers : AnswerSet := [("mental_health", "feeling fine")]

/-- A catalog that the shipped validation accepts although one option score
exceeds its question weight and the question id is duplicated: the source's
only check is the weight-sum assert. -/
def badCatalog : List Question :=
  [ { id := "dup", prompt := "p1", weight := 50, options := [("over", 80)]
    , risk_keywords := [] }
  , { id := "dup", prompt := "p2", weight := 50, options := [("ok", 0)]
    , risk_keywords := [] } ]

/-- A wall-clock reading.  `generate_reference` formats only down to the
minute (`%Y%m%d%H%M`); the seconds field exists to distinguish invocations. -/
structure Clock where
  year : Nat
  month : Nat
  day : Nat
  hour : Nat
  minute : Nat
  second : Nat
deriving DecidableEq

def pad2 (n : Nat) : String :=
  if n < 10 then "0" ++ toString n else toString n

def pad4 (n : Nat) : String :=
  if n < 10 then "000" ++ toString n
  else if n < 100 then "00" ++ toString n
  else if n < 1000 then "0" ++ toString n
  else toString n

/-- `datetime.now().strftime("%Y%m%d%H%M")`. -/
def strftimeMinute (c : Clock) : String :=
  pad4 c.year ++ pad2 c.month ++ pad2 c.day ++ pad2 c.hour ++ pad2 c.minute

/-- `generate_reference` (source lines 1111-1113):
`f"AM-{timestamp}-{abs(hash(timestamp)) % 10000:04d}"`.  The parameter `h`
abstracts Python's session-fixed string hash composed with `abs`; within one
session (one process) it is a fixed pure function. -/
def generate_reference (h : String → Nat) (c : Clock) : String :=
  let timestamp := strftimeMinute c
  "AM-" ++ timestamp ++ "-" ++ pad4 (h timestamp % 10000)

/-! ## Fallback generator (source lines 1351-1403)

`get_fallback_response` reads the payload dict with `.get` defaults, so it is
modelled over `LoosePayload`, in which each key the source reads may be
absent — covering the ill-formed payloads of claim C10 (missing `assessment`
mapping, missing `risk_level` / `total_score` keys, missing `risk_flags`).
The source also emits one diagnostic log/print line; that line does not
influence the returned value and has no counterpart in the embedding. -/

/-- One entry of `user_response.support_links`. -/
structure SupportLink where
  name : String
  url : String
  phone : String
  description : String
  priority : String
deriving DecidableEq

/-- The citizen-facing half of an `EnrichmentResult`. -/
structure UserResponse where
  greeting : String
  support_links : List SupportLink
  next_steps : String
  emergency_note : Option String
deriving DecidableEq

/-- The officer-facing half of an `EnrichmentResult`. -/
structure OfficerSummary where
  risk_level : String
  key_concerns : List String
  recommended_actions : List String
  referral_suggestions : List String
  notes : String
deriving DecidableEq

/-- The two-part enrichment reply schema. -/
structure EnrichmentResult where
  user_response : UserResponse
  officer_summary : OfficerSummary
deriving DecidableEq

/-- The `assessment` sub-dict as read by the fallback generator: either key
may be missing. -/
structure LooseAssessment where
  risk_level : Option String
  total_score : Option Nat
deriving DecidableEq

/-- A payload as read by the fallback generator: every key it touches may be
missing (`payload.get` with defaults). -/
structure LoosePayload where
  assessment : Option LooseAssessment
  reference : Option String
  risk_flags : Option (List RiskFlag)
deriving DecidableEq

/-- Python `str.title()` on ASCII text: a letter is uppercased when the
previous character is not a letter, lowercased otherwise. -/
def titleChars : Bool → List Char → List Char
  | _, [] => []
  | prevAlpha, c :: cs =>
    (if c.isAlpha then (if prevAlpha then c.toLower else c.toUpper) else c)
      :: titleChars c.isAlpha cs

def pyTitle (s : String) : String := String.mk (titleChars false s.data)

/-- Python `.replace("_", " ")`: a single-character replace is a char map. -/
def replaceUnderscores (s : String) : String :=
  String.mk (s.data.map fun c => if c = '_' then ' ' else c)

/-- The three fixed support entries of the fallback response. -/
def fallback_support_links : List SupportLink :=
  [ { name := "Birmingham Council Homelessness Line"
    , url := "https://www.birmingham.gov.uk/homeless"
    , phone := "0121 303 7410"
    , description := "24/7 housing advice and emergency support for Birmingham residents"
    , priority := "high" }
  , { name := "Shelter Birmingham"
    , url := "https://england.shelter.org.uk/get_help/local_services/birmingham"
    , phone := "0808 800 4444"
    , description := "Free expert housing advice and support"
    , priority := "high" }
  , { name := "Citizens Advice Birmingham"
    , url := "https://www.citizensadvice.org.uk/local/birmingham/"
    , phone := "0808 278 7973"
    , description := "Free advice on benefits, debt, and housing issues"
    , priority := "medium" } ]

/-- `get_fallback_response` (source lines 1351-1403).  `payload.get(k)` with a
missing key yields the Python defaults of the source: `"MEDIUM"` for the risk
level, the string `"N/A"` inside the score line, `"None"` for the reference
interpolation, and `[]` for the flags. -/
def get_fallback_response (payload : LoosePayload) : EnrichmentResult :=
  let risk_level := (payload.assessment.bind LooseAssessment.risk_level).getD "MEDIUM"
  { user_response :=
    { greeting := "Thank you for completing this assessment. Based on your responses, we\x27ve identified some services that may be able to help you."
    , support_links := fallback_support_links
    , next_steps := "Your reference number is "
        ++ (match payload.reference with | some r => r | none => "None")
        ++ ". A housing support officer will review your case and be in touch within the recommended timeframe."
    , emergency_note :=
        if risk_level == "HIGH" then
          some "If you need immediate help tonight, call Birmingham Council on 0121 303 7410"
        else none }
  , officer_summary :=
    { risk_level := risk_level
    , key_concerns :=
        ("Score: "
          ++ (match payload.assessment.bind LooseAssessment.total_score with
              | some n => toString n
              | none => "N/A")
          ++ "/100")
        :: (payload.risk_flags.getD []).map
            (fun f => pyTitle (replaceUnderscores f.category))
    , recommended_actions :=
        ["Review full assessment", "Contact citizen within recommended timeframe"]
    , referral_suggestions := ["Based on risk flags - see assessment details"]
    , notes := "Automated fallback response - LLM analysis was unavailable. Manual review recommended." } }

/-- A well-formed concrete payload used by the C4 witness. -/
def demoLoosePayload : LoosePayload :=
  { assessment := some { risk_level := some "HIGH", total_score := some 72 }
  , reference := some "AM-202510120930-0042"
  , risk_flags := some [⟨"financial_pressure", "p", "a", []⟩] }

/-- The fully-empty payload used by the C10 witness. -/
def emptyLoosePayload : LoosePayload :=
  { assessment := none, reference := none, risk_flags := none }

/-! ## Enrichment pipeline (source lines 1116-1192, 1631-1650, 1674-1692)

JSON values as produced by `resp.json()` / `json.loads`.  Float literals do
not occur in any claim and are omitted from the model. -/

inductive J where
  | null : J
  | bool : Bool → J
  | num : Int → J
  | str : String → J
  | arr : List J → J
  | obj : List (String × J) → J

mutual

/-- Python `repr`, as used by `str()` on containers.  Quote escaping inside
nested strings is not modelled; no theorem depends on container rendering. -/
def pyRepr : J → String
  | .null => "None"
  | .bool b => if b then "True" else "False"
  | .num n => toString n
  | .str s => "\x27" ++ s ++ "\x27"
  | .arr xs => "[" ++ pyReprItems xs ++ "]"
  | .obj fs => "\x7b" ++ pyReprFields fs ++ "\x7d"

def pyReprItems : List J → String
  | [] => ""
  | [x] => pyRepr x
  | x :: y :: xs => pyRepr x ++ ", " ++ pyReprItems (y :: xs)

def pyReprFields : List (String × J) → String
  | [] => ""
  | [(k, v)] => "\x27" ++ k ++ "\x27: " ++ pyRepr v
  | (k, v) :: f :: fs =>
      "\x27" ++ k ++ "\x27: " ++ pyRepr v ++ ", " ++ pyReprFields (f :: fs)

end

/-- Python `str()`: the identity on strings, `repr`-style rendering
otherwise. -/
def pyStr : J → String
  | .str s => s
  | v => pyRepr v

/-- `d[k]` inside a `try`: succeeds only on a dict holding the key. -/
def jget (k : String) : J → Option J
  | .obj fields => alookup fields k
  | _ => none

/-- `xs[i]` inside a `try`: succeeds on an array with `i` in range.
(Python indexing a string yields a one-character string, but the `["text"]`
subscript that follows then raises, so collapsing that case to `none` is
behaviour-equivalent for the chain below.) -/
def jidx (i : Nat) : J → Option J
  | .arr xs => xs.get? i
  | _ => none

/-- `data["output"]["message"]["content"][0]["text"]` under the
`try/except Exception` returning None (source lines 1178-1184). -/
def extract_content (data : J) : Option J :=
  ((((jget "output" data).bind (jget "message")).bind
      (jget "content")).bind (jidx 0)).bind (jget "text")

/-- The environment of one HTTP call: API-key presence, transport success,
HTTP status (`resp.ok`), and the decoded body (`none` models a body on
which `resp.json()` raises). -/
structure HttpEnv where
  hasApiKey : Bool
  transportOk : Bool
  statusOk : Bool
  body : Option J

/-- `_bedrock_http_call` (source lines 1116-1152): every failure stage —
missing key, transport exception, non-success status, undecodable body —
returns None. -/
def bedrock_http_call (env : HttpEnv) : Option J :=
  if !env.hasApiKey then none
  else if !env.transportOk then none
  else if !env.statusOk then none
  else env.body

/-- `json.loads(content)` under `except json.JSONDecodeError` ONLY (source
lines 1186-1192): on a string it parses, a parse failure being caught
(`.ok none`); on any non-string value `json.loads` raises `TypeError`,
which that handler does not catch — modelled as `.error ()` (an exception
propagating to the caller).  `parse` abstracts the JSON grammar. -/
def pyJsonLoads (parse : String → Option J) : J → Except Unit (Option J)
  | .str s => .ok (parse s)
  | _ => .error ()

/-- `call_bedrock_claude` (source lines 1155-1192): `.ok none` means the
function returned None (the fallback path), `.ok (some r)` a parsed reply,
`.error ()` an uncaught exception. -/
def call_bedrock_claude (parse : String → Option J) (env : HttpEnv) :
    Except Unit (Option J) :=
  match bedrock_http_call env with
  | none => .ok none
  | some data =>
    match extract_content data with
    | none => .ok none
    | some content => pyJsonLoads parse content

/-- The stored `(llm_response, used_fallback)` session pair: a raw parsed
reply (`Sum.inl`) or the trusted fallback record (`Sum.inr`). -/
abbrev StoredResult := (J ⊕ EnrichmentResult) × Bool

/-- The completion handler of `render_additional` (source lines 1638-1647):
store the reply and clear the flag on success; store the fallback and set
the flag when the call returned None; an exception propagates. -/
def completeAssessment (payload : LoosePayload) (call : Except Unit (Option J)) :
    Except Unit StoredResult :=
  match call with
  | .error e => .error e
  | .ok (some r) => .ok (.inl r, false)
  | .ok none => .ok (.inr (get_fallback_response payload), true)

/-- The retry handler of `render_results` (source lines 1674-1685): a
successful retry replaces the stored response and clears the flag; a failed
retry keeps the previous state; an exception propagates. -/
def retryAssessment (prev : StoredResult) (call : Except Unit (Option J)) :
    Except Unit StoredResult :=
  match call with
  | .error e => .error e
  | .ok (some r) => .ok (.inl r, false)
  | .ok none => .ok prev

/-- A reply body whose envelope subscript chain succeeds but whose `text`
member is the number 123 rather than a string. -/
def nonStringTextBody : J :=
  .obj [("output", .obj [("message", .obj [("content",
    .arr [.obj [("text", .num 123)]])])])]

/-- The spec's reply envelope contract: the subscript chain must yield a
JSON STRING (spec section 6: `text: "<JSON string>"`). -/
def spec_envelope_ok (data : J) : Bool :=
  match extract_content data with
  | some (.str _) => true
  | _ => false

/-! ## Result-rendering salvage (source lines 1716-1755) -/

def default_greeting : String := "Thank you for completing this assessment."

/-- `llm_response.get("user_response", {})` followed by the greeting salvage
of `render_results` (source lines 1716-1728): a dict's `greeting` key with
the thank-you default; a non-dict value is passed through `str()`, an empty
result falling back to the default (`str(user_resp_raw) or "Thank you..."`). -/
def extract_greeting_src (llm_response : List (String × J)) : J :=
  match (alookup llm_response "user_response").getD (J.obj []) with
  | .obj fields => (alookup fields "greeting").getD (J.str default_greeting)
  | other =>
    let s := pyStr other
    J.str (if s = "" then default_greeting else s)

/-- The support-links extraction of `render_results` (source lines
1744-1749): the dict's `support_links` key defaulting to the empty list, the
empty list when `user_response` is not a dict, and the empty list when the
value is not a list. -/
def extract_support_links (llm_response : List (String × J)) : List J :=
  let user_resp_raw := (alookup llm_response "user_response").getD (J.obj [])
  let support_links :=
    match user_resp_raw with
    | .obj fields => (alookup fields "support_links").getD (J.arr [])
    | _ => J.arr []
  match support_links with
  | .arr xs => xs
  | _ => []

def jAsObj : J → Option (List (String × J))
  | .obj fields => some fields
  | _ => none

/-- The rendering loop over support links (source lines 1751-1755): dict
entries are rendered, non-dict entries are logged and skipped individually. -/
def rendered_links (llm_response : List (String × J)) : List (List (String × J)) :=
  (extract_support_links llm_response).filterMap jAsObj

/-! ## Helper lemmas -/

theorem stepQuestion_eq (r : AnswerSet) (s : ScoreState) (q : Question) :
    stepQuestion r s q =
      { total := s.total + qScore r q
      , category_scores := s.category_scores ++ (qCat r q).toList
      , risk_flags := s.risk_flags ++ (qFlag r q).toList
      , crisis := s.crisis || qCrisis r q } := by
  unfold stepQuestion qScore qCat qFlag qCrisis
  cases h1 : alookup r q.id with
  | none => simp
  | some answer =>
    cases h2 : alookup q.options answer with
    | none => simp [h2]
    | some score =>
      by_cases h : 10 * score > 6 * q.weight <;> simp [h2, h, Bool.or_assoc]

theorem foldl_stepQuestion (r : AnswerSet) :
    ∀ (qs : List Question) (s : ScoreState),
      qs.foldl (stepQuestion r) s =
        { total := s.total + (qs.map (qScore r)).sum
        , category_scores := s.category_scores ++ qs.filterMap (qCat r)
        , risk_flags := s.risk_flags ++ qs.filterMap (qFlag r)
        , crisis := s.crisis || qs.any (qCrisis r) }
  | [], s => by simp
  | q :: qs, s => by
    rw [List.foldl_cons, stepQuestion_eq, foldl_stepQuestion r qs]
    cases hc : qCat r q <;> cases hf : qFlag r q <;>
      simp [List.filterMap_cons, hc, hf, Nat.add_assoc, Bool.or_assoc]

/-- The scoring loop, expressed through the per-question projections. -/
theorem scoreAnswers_eq (r : AnswerSet) :
    scoreAnswers r =
      { total := (QUESTIONS.map (qScore r)).sum
      , category_scores := QUESTIONS.filterMap (qCat r)
      , risk_flags := QUESTIONS.filterMap (qFlag r)
      , crisis := QUESTIONS.any (qCrisis r) } := by
  rw [scoreAnswers, foldl_stepQuestion]
  simp

theorem alookup_mem {α : Type} :
    ∀ (l : List (String × α)) (k : String) (v : α),
      alookup l k = some v → (k, v) ∈ l
  | [], _, _, h => by simp [alookup] at h
  | (k', v') :: rest, k, v, h => by
    by_cases hk : k' = k
    · subst hk
      simp [alookup] at h
      simp [h]
    · simp [alookup, hk] at h
      exact List.mem_cons_of_mem _ (alookup_mem rest k v h)

theorem qScore_le (r : AnswerSet) (q : Question)
    (hb : ∀ p ∈ q.options, p.2 ≤ q.weight) : qScore r q ≤ q.weight := by
  unfold qScore
  cases h1 : alookup r q.id with
  | none => exact Nat.zero_le _
  | some answer =>
    cases h2 : alookup q.options answer with
    | none => simp [h2]
    | some score => simpa [h2] using hb _ (alookup_mem _ _ _ h2)

theorem qCrisis_of_other (r : AnswerSet) (q : Question)
    (h1 : q.id ≠ "housing_stability") (h2 : q.id ≠ "abuse_safety")
    (h3 : q.id ≠ "mental_health") : qCrisis r q = false := by
  unfold qCrisis
  cases ha : alookup r q.id with
  | none => rfl
  | some answer =>
    cases hb : alookup q.options answer with
    | none => simp [hb]
    | some score =>
      simp [hb, beq_eq_false_iff_ne.mpr h1, beq_eq_false_iff_ne.mpr h2,
            beq_eq_false_iff_ne.mpr h3]

theorem qCrisis_housing (r : AnswerSet) :
    qCrisis r housing_stability_q =
      triggerScan r housing_stability_q
        (fun a => pyStartsWith a "Unstable" || pyStartsWith a "Crisis") := by
  unfold qCrisis triggerScan
  cases ha : alookup r housing_stability_q.id with
  | none => rfl
  | some answer =>
    cases hb : alookup housing_stability_q.options answer with
    | none => simp [hb]
    | some score =>
      simp only [housing_stability_q] at hb ⊢
      simp [hb]

theorem qCrisis_abuse (r : AnswerSet) :
    qCrisis r abuse_safety_q =
      triggerScan r abuse_safety_q (fun a => pyStartsWith a "In immediate danger") := by
  unfold qCrisis triggerScan
  cases ha : alookup r abuse_safety_q.id with
  | none => rfl
  | some answer =>
    cases hb : alookup abuse_safety_q.options answer with
    | none => simp [hb]
    | some score =>
      simp only [abuse_safety_q] at hb ⊢
      simp [hb]

theorem qCrisis_mental (r : AnswerSet) :
    qCrisis r mental_health_q =
      triggerScan r mental_health_q (fun a => pyStartsWith a "In crisis") := by
  unfold qCrisis triggerScan
  cases ha : alookup r mental_health_q.id with
  | none => rfl
  | some answer =>
    cases hb : alookup mental_health_q.options answer with
    | none => simp [hb]
    | some score =>
      simp only [mental_health_q] at hb ⊢
      simp [hb]

/-- The loop's `crisis_override` flag coincides with the spec trigger
restricted to recognized labels. -/
theorem any_qCrisis (r : AnswerSet) :
    QUESTIONS.any (qCrisis r) = spec_crisis_valid r := by
  have h2 := qCrisis_of_other r financial_pressure_q (by decide) (by decide) (by decide)
  have h3 := qCrisis_of_other r health_work_impact_q (by decide) (by decide) (by decide)
  have h6 := qCrisis_of_other r care_leaver_q (by decide) (by decide) (by decide)
  have h7 := qCrisis_of_other r institutional_discharge_q (by decide) (by decide) (by decide)
  have h8 := qCrisis_of_other r benefits_access_q (by decide) (by decide) (by decide)
  have h9 := qCrisis_of_other r support_network_q (by decide) (by decide) (by decide)
  have h10 := qCrisis_of_other r service_interest_q (by decide) (by decide) (by decide)
  simp only [QUESTIONS, List.any_cons, List.any_nil,
    qCrisis_housing, qCrisis_abuse, qCrisis_mental,
    h2, h3, h6, h7, h8, h9, h10, Bool.or_false, Bool.false_or]
  simp [spec_crisis_valid, Bool.or_assoc, Bool.or_comm, Bool.or_left_comm]

/-- The exact rational spec threshold agrees with the integer comparison used
in the embedding of the loop. -/
theorem threshold_iff (w s : Nat) :
    ((6 : ℚ) / 10) * (w : ℚ) < (s : ℚ) ↔ 6 * w < 10 * s := by
  rw [show ((6 : ℚ) / 10) * (w : ℚ) = ((6 * w : ℕ) : ℚ) / 10 by push_cast; ring]
  rw [div_lt_iff₀ (by norm_num : (0 : ℚ) < 10)]
  rw [show ((s : ℚ) * 10) = ((10 * s : ℕ) : ℚ) by push_cast; ring]
  exact Nat.cast_lt

theorem spec_flag_eq_qFlag (r : AnswerSet) (q : Question) :
    spec_flag r q = qFlag r q := by
  unfold spec_flag qFlag
  cases ha : alookup r q.id with
  | none => rfl
  | some answer =>
    cases hb : alookup q.options answer with
    | none => simp [hb]
    | some score => simp [hb, threshold_iff]

/-! ## Claim C2 -/

/-- C2: for every AnswerSet (empty, partial, or containing unrecognized
labels), the computed `total_score` satisfies `0 ≤ total_score ≤ 100`:
each per-category contribution is a non-negative option score bounded by the
question weight, and the catalog weights sum to 100. -/
theorem claim_C2_total_score_bounds (r : AnswerSet) (ctx ref : String) :
    0 ≤ (build_llm_payload r ctx ref).assessment.total_score ∧
    (build_llm_payload r ctx ref).assessment.total_score ≤ 100 := by
  refine ⟨Nat.zero_le _, ?_⟩
  have hball : ∀ q ∈ QUESTIONS, ∀ p ∈ q.options, p.2 ≤ q.weight := by decide
  have h1 : (build_llm_payload r ctx ref).assessment.total_score
      = (QUESTIONS.map (qScore r)).sum := by
    simp [build_llm_payload, scoreAnswers_eq]
  rw [h1]
  calc (QUESTIONS.map (qScore r)).sum
      ≤ (QUESTIONS.map Question.weight).sum :=
        List.sum_le_sum (fun q hq => qScore_le r q (hball q hq))
    _ = 100 := by decide

/-! ## Claim C1 -/

theorem claim_C1_counterexample :
    spec_crisis_raw rawCrisisAnswers = true ∧
    alookup housing_stability_q.options "Unstable" = none ∧
    (build_llm_payload rawCrisisAnswers "" "REF-1").assessment.total_score = 0 ∧
    (build_llm_payload rawCrisisAnswers "" "REF-1").assessment.risk_level = "LOW" ∧
    spec_classify 0 (spec_crisis_raw rawCrisisAnswers)
      = ("HIGH", "Crisis indicators present – urgent intervention recommended",
         "Within 24 hours") := by
  refine ⟨?_, ?_, ?_, ?_, ?_⟩ <;> rfl

/-- C1 (amended): the classification equals the spec reference definition in
which the crisis trigger only considers answers whose label is a recognized
option of its question; base thresholds, fixed description / response-time
pairs, the OR across the triggers and leaving an already-HIGH band unchanged
are all as the claim states.  The second conjunct records that the override
leaves a base-HIGH band (any total of the form `60 + t`) unchanged. -/
theorem claim_C1_risk_classification (r : AnswerSet) (ctx ref : String) :
    (((build_llm_payload r ctx ref).assessment.risk_level,
      (build_llm_payload r ctx ref).assessment.risk_description,
      (build_llm_payload r ctx ref).assessment.recommended_response_time)
        = spec_classify (build_llm_payload r ctx ref).assessment.total_score
            (spec_crisis_valid r))
    ∧ (∀ t : Nat, spec_classify (60 + t) true = spec_band (60 + t)) := by
  constructor
  · have hc := any_qCrisis r
    simp only [build_llm_payload, scoreAnswers_eq, ← hc]
    set t := (QUESTIONS.map (qScore r)).sum with ht
    unfold spec_classify spec_band get_risk_band
    rcases Nat.lt_or_ge t 60 with h60 | h60
    · rcases Nat.lt_or_ge t 35 with h35 | h35
      · simp only [if_neg (by omega : ¬ t ≥ 60), if_neg (by omega : ¬ t ≥ 35)]
      · simp only [if_neg (by omega : ¬ t ≥ 60), if_pos h35]
    · simp only [if_pos h60]
  · intro t
    unfold spec_classify spec_band
    simp [Nat.le_add_right]

/-! ## Claim C5 -/

/-- C5: a RiskFlag is emitted for a category exactly when that category is
answered with a recognized label whose score strictly exceeds 0.6 times the
weight (`spec_flag` uses the exact rational threshold), flags appear in
catalog order and carry the category id, prompt, answer label and risk
keywords — stated as: the emitted list IS the catalog-ordered `filterMap` of
the spec rule.  Scenario C yields exactly one flag, for
`financial_pressure`, with a 19/25 category entry. -/
theorem claim_C5_risk_flags :
    (∀ (r : AnswerSet) (ctx ref : String),
       (build_llm_payload r ctx ref).risk_flags = QUESTIONS.filterMap (spec_flag r)) ∧
    (build_llm_payload scenarioC_answers "" "REF-2").risk_flags =
      [⟨"financial_pressure", financial_pressure_q.prompt,
        "Severe pressure - behind on essential bills",
        financial_pressure_q.risk_keywords⟩] ∧
    (build_llm_payload scenarioC_answers "" "REF-2").category_scores =
      [("financial_pressure",
        ⟨19, 25, "Severe pressure - behind on essential bills"⟩)] := by
  refine ⟨?_, ?_, ?_⟩
  · intro r ctx ref
    have hf : spec_flag r = qFlag r := funext (spec_flag_eq_qFlag r)
    simp [build_llm_payload, scoreAnswers_eq, hf]
  · rfl
  · rfl

/-! ## Claim C6 -/

theorem alookup_eraseKey (k j : String) (r : AnswerSet) :
    alookup (eraseKey k r) j = if j = k then none else alookup r j := by
  induction r with
  | nil => simp [eraseKey, alookup]
  | cons p r ih =>
    by_cases hpk : p.1 = k
    · have hcond : (!(p.1 == k)) = false := by simp [hpk]
      simp only [eraseKey, List.filter_cons, hcond, Bool.false_eq_true, if_false] at *
      rw [ih]
      by_cases hjk : j = k
      · simp [hjk]
      · have : ¬ (p.1 = j) := fun h => hjk (h.symm.trans hpk ▸ rfl)
        cases p with
        | mk k' v' =>
          simp only [alookup, if_neg hjk]
          rw [if_neg (by simpa using this)]
    · have hcond : (!(p.1 == k)) = true := by simp [hpk]
      simp only [eraseKey, List.filter_cons, hcond, if_true] at *
      cases p with
      | mk k' v' =>
        by_cases hpj : k' = j
        · have hjk : ¬ (j = k) := fun h => hpk (by simpa using hpj.trans h)
          simp [alookup, hpj, hjk]
        · simp only [alookup, if_neg hpj]
          rw [ih]

theorem stepQuestion_eraseKey (r : AnswerSet) (k v : String) (s : ScoreState)
    (q : Question) (hk : alookup r k = some v)
    (hq : q.id = k → alookup q.options v = none) :
    stepQuestion (eraseKey k r) s q = stepQuestion r s q := by
  unfold stepQuestion
  rw [alookup_eraseKey]
  by_cases hid : q.id = k
  · rw [if_pos hid, hid, hk]
    simp [hq hid]
  · rw [if_neg hid]

theorem list_foldl_congr {α β : Type} :
    ∀ (l : List α) (s : β) (f g : β → α → β),
      (∀ a ∈ l, ∀ b, f b a = g b a) → l.foldl f s = l.foldl g s
  | [], _, _, _, _ => rfl
  | a :: l, s, f, g, h => by
    rw [List.foldl_cons, List.foldl_cons, h a (by simp)]
    exact list_foldl_congr l _ f g (fun x hx => h x (by simp [hx]))

theorem scoreAnswers_eraseKey (r : AnswerSet) (k v : String)
    (hk : alookup r k = some v)
    (hinv : ∀ q ∈ QUESTIONS, q.id = k → alookup q.options v = none) :
    scoreAnswers (eraseKey k r) = scoreAnswers r := by
  unfold scoreAnswers
  exact list_foldl_congr _ _ _ _
    (fun q hq s => stepQuestion_eraseKey r k v s q hk (hinv q hq))

theorem alookup_none_of_keys {α : Type} :
    ∀ (l : List (String × α)) (k : String), (∀ p ∈ l, p.1 ≠ k) → alookup l k = none
  | [], _, _ => rfl
  | p :: l, k, h => by
    cases p with
    | mk k' v' =>
      have h1 : k' ≠ k := by simpa using h (k', v') (by simp)
      simp only [alookup, if_neg h1]
      exact alookup_none_of_keys l k (fun x hx => h x (by simp [hx]))

theorem qCat_key (r : AnswerSet) (q : Question) (e : String × CategoryScore)
    (he : qCat r q = some e) : e.1 = q.id := by
  unfold qCat at he
  cases h1 : alookup r q.id with
  | none => simp [h1] at he
  | some answer =>
    cases h2 : alookup q.options answer with
    | none => simp [h1, h2] at he
    | some score =>
      simp [h1, h2] at he
      rw [← he]

/-- C6: an entry whose label is not a valid option of its question is
equivalent to leaving the question unanswered — the two payloads are equal
componentwise (reference, total, category scores, flags, band, description,
response time), the category map has no entry for that key, and no error is
raised (the embedding is total).  The payload omits only the wall-clock
timestamp. -/
theorem claim_C6_unrecognized_equiv (r : AnswerSet) (ctx ref k v : String)
    (hk : alookup r k = some v)
    (hinv : ∀ q ∈ QUESTIONS, q.id = k → alookup q.options v = none) :
    build_llm_payload (eraseKey k r) ctx ref = build_llm_payload r ctx ref ∧
    alookup (build_llm_payload r ctx ref).category_scores k = none := by
  constructor
  · have hstate := scoreAnswers_eraseKey r k v hk hinv
    simp only [build_llm_payload, hstate]
  · have hcs : (build_llm_payload r ctx ref).category_scores
        = QUESTIONS.filterMap (qCat r) := by
      simp [build_llm_payload, scoreAnswers_eq]
    rw [hcs]
    apply alookup_none_of_keys
    intro p hp hpk
    rcases List.mem_filterMap.mp hp with ⟨q, hqmem, hq⟩
    have hid : q.id = k := (qCat_key r q p hq) ▸ hpk
    have hnone : qCat r q = none := by
      unfold qCat
      rw [hid, hk]
      simp [hinv q hqmem hid]
    rw [hnone] at hq
    cases hq

/-- Witness for C6 at a concrete input: the bogus `mental_health` label
behaves exactly like not answering at all. -/
theorem claim_C6_witness :
    build_llm_payload (eraseKey "mental_health" invalidLabelAnswers) "ctx" "REF-3"
        = build_llm_payload invalidLabelAnswers "ctx" "REF-3" ∧
    alookup (build_llm_payload invalidLabelAnswers "ctx" "REF-3").category_scores
        "mental_health" = none :=
  claim_C6_unrecognized_equiv invalidLabelAnswers "ctx" "REF-3" "mental_health"
    "feeling fine" rfl (by decide)

/-! ## Claim C7 -/

/-- C7 counterexample: `badCatalog` passes the code's startup validation
(the weight-sum assert) even though an option score exceeds its question's
weight and a question id is duplicated — the claim says validation must
fail for every such catalog. -/
theorem claim_C7_counterexample :
    validateCatalog badCatalog = true ∧
    (∃ q ∈ badCatalog, ∃ p ∈ q.options, q.weight < p.2) ∧
    ¬ (badCatalog.map Question.id).Nodup := by decide

/-- C7 (amended): the startup validation consists of the single module-level
assert that the weights sum to exactly 100 (it checks neither option bounds
nor id uniqueness); the shipped catalog nevertheless satisfies all three
spec conditions: weights sum to 100, every option score is at most its
question's weight, and all ids are distinct. -/
theorem claim_C7_shipped_catalog_valid :
    validateCatalog QUESTIONS = true ∧
    (QUESTIONS.map Question.weight).sum = 100 ∧
    (∀ q ∈ QUESTIONS, ∀ p ∈ q.options, p.2 ≤ q.weight) ∧
    (QUESTIONS.map Question.id).Nodup := by decide

/-! ## Claim C9 -/

/-- C9: two DISTINCT invocations within the same wall-clock minute return
the identical reference string, whatever the session hash function is,
because the 4-digit suffix is a deterministic hash of the minute-resolution
timestamp — refuting uniqueness-per-session. -/
theorem claim_C9_same_minute_collision (h : String → Nat) :
    (⟨2025, 10, 12, 9, 30, 0⟩ : Clock) ≠ (⟨2025, 10, 12, 9, 30, 45⟩ : Clock) ∧
    generate_reference h ⟨2025, 10, 12, 9, 30, 0⟩
      = generate_reference h ⟨2025, 10, 12, 9, 30, 45⟩ := by
  exact ⟨by decide, rfl⟩


/-! ## Claim C4 -/

/-- C4: for every well-formed payload (assessment mapping with `risk_level`
and `total_score` present, `reference` and `risk_flags` present) the fallback
response has the fixed greeting, exactly the three fixed support entries,
next-steps text embedding the payload's reference id, an emergency note
exactly when `risk_level = "HIGH"`, `key_concerns` starting with
`"Score: <total>/100"` followed by the titleized category ids of all
RiskFlags in order, the fixed recommended actions, and the
automated-fallback / manual-review notes marker.  Purity and totality hold
by construction of the embedding (`get_fallback_response` is a total
function; the source's one diagnostic log line does not affect the value). -/
theorem claim_C4_fallback_shape (p : LoosePayload) (a : LooseAssessment)
    (rl ref : String) (n : Nat) (flags : List RiskFlag)
    (ha : p.assessment = some a) (hrl : a.risk_level = some rl)
    (hn : a.total_score = some n) (href : p.reference = some ref)
    (hf : p.risk_flags = some flags) :
    (get_fallback_response p).user_response.greeting
      = "Thank you for completing this assessment. Based on your responses, we\x27ve identified some services that may be able to help you." ∧
    (get_fallback_response p).user_response.support_links = fallback_support_links ∧
    (get_fallback_response p).user_response.support_links.length = 3 ∧
    (get_fallback_response p).user_response.next_steps
      = "Your reference number is " ++ ref
        ++ ". A housing support officer will review your case and be in touch within the recommended timeframe." ∧
    ((get_fallback_response p).user_response.emergency_note.isSome ↔ rl = "HIGH") ∧
    (get_fallback_response p).officer_summary.risk_level = rl ∧
    (get_fallback_response p).officer_summary.key_concerns
      = ("Score: " ++ toString n ++ "/100")
        :: flags.map (fun f => pyTitle (replaceUnderscores f.category)) ∧
    (get_fallback_response p).officer_summary.recommended_actions
      = ["Review full assessment", "Contact citizen within recommended timeframe"] ∧
    (get_fallback_response p).officer_summary.notes
      = "Automated fallback response - LLM analysis was unavailable. Manual review recommended." := by
  by_cases hH : rl = "HIGH"
  · simp [get_fallback_response, ha, hrl, hn, href, hf, hH, fallback_support_links]
  · simp [get_fallback_response, ha, hrl, hn, href, hf, hH, beq_iff_eq,
      fallback_support_links]

/-- Witness for C4 at a concrete well-formed payload. -/
theorem claim_C4_witness :
    (get_fallback_response demoLoosePayload).user_response.next_steps
      = "Your reference number is AM-202510120930-0042. A housing support officer will review your case and be in touch within the recommended timeframe." ∧
    ((get_fallback_response demoLoosePayload).user_response.emergency_note.isSome
      ↔ ("HIGH" : String) = "HIGH") ∧
    (get_fallback_response demoLoosePayload).officer_summary.key_concerns
      = ("Score: " ++ toString 72 ++ "/100")
        :: ([⟨"financial_pressure", "p", "a", []⟩] : List RiskFlag).map
            (fun f => pyTitle (replaceUnderscores f.category)) := by
  have h := claim_C4_fallback_shape demoLoosePayload ⟨some "HIGH", some 72⟩ "HIGH"
    "AM-202510120930-0042" 72 [⟨"financial_pressure", "p", "a", []⟩]
    rfl rfl rfl rfl rfl
  exact ⟨h.2.2.2.1, h.2.2.2.2.1, h.2.2.2.2.2.2.1⟩

/-! ## Claim C10 -/

/-- C10: the fallback generator degrades gracefully on ill-formed payloads:
a missing assessment mapping or missing `risk_level` key defaults the
officer risk level to "MEDIUM" with no emergency note (the note appears only
for an explicit "HIGH"); a missing `total_score` makes the leading
key-concern "Score: N/A/100"; a missing `risk_flags` key behaves exactly as
the empty list.  Totality (never failing) holds by construction. -/
theorem claim_C10_fallback_degrades (p : LoosePayload) :
    (p.assessment.bind LooseAssessment.risk_level = none →
      (get_fallback_response p).officer_summary.risk_level = "MEDIUM" ∧
      (get_fallback_response p).user_response.emergency_note = none) ∧
    (p.assessment.bind LooseAssessment.total_score = none →
      (get_fallback_response p).officer_summary.key_concerns.head?
        = some "Score: N/A/100") ∧
    (p.risk_flags = none →
      get_fallback_response p = get_fallback_response { p with risk_flags := some [] }) := by
  refine ⟨fun h => ?_, fun h => ?_, fun h => ?_⟩
  · simp [get_fallback_response, h]
  · simp [get_fallback_response, h]
    rfl
  · simp [get_fallback_response, h]

/-- Witness for C10 at the fully-empty payload. -/
theorem claim_C10_witness :
    (get_fallback_response emptyLoosePayload).officer_summary.risk_level = "MEDIUM" ∧
    (get_fallback_response emptyLoosePayload).user_response.emergency_note = none ∧
    (get_fallback_response emptyLoosePayload).officer_summary.key_concerns.head?
      = some "Score: N/A/100" ∧
    get_fallback_response emptyLoosePayload
      = get_fallback_response { emptyLoosePayload with risk_flags := some [] } := by
  have h := claim_C10_fallback_degrades emptyLoosePayload
  exact ⟨(h.1 rfl).1, (h.1 rfl).2, h.2.1 rfl, h.2.2 rfl⟩

/-! ## Claim C3 -/

/-- C3 counterexample: with a working transport and a decodable body whose
envelope chain yields `text` as the number 123 — an envelope mismatch per
the spec's contract (`text` must be a JSON string) — the code raises an
uncaught `TypeError` from `json.loads` instead of storing the fallback: the
call and the completion evaluate to a propagating exception, not to a
fallback result with `used_fallback = true`. -/
theorem claim_C3_counterexample :
    spec_envelope_ok nonStringTextBody = false ∧
    extract_content nonStringTextBody = some (J.num 123) ∧
    call_bedrock_claude (fun _ => none) ⟨true, true, true, some nonStringTextBody⟩
      = .error () ∧
    completeAssessment ⟨none, none, none⟩
      (call_bedrock_claude (fun _ => none) ⟨true, true, true, some nonStringTextBody⟩)
      = .error () := by
  exact ⟨rfl, rfl, rfl, rfl⟩

/-- C3 (amended): whenever the enrichment call returns None — missing API
key, transport error, non-success HTTP status, body not decodable as JSON,
envelope subscript-chain failure, or a STRING `text` member that does not
parse as JSON — the stored result is exactly the fallback generator's output
for that payload with `used_fallback = true`, and no exception propagates;
and a later successful retry replaces (does not merge with) the stored
result and clears the flag.  The string proviso on `text` is forced by
the counterexample. -/
theorem claim_C3_fallback_contract (parse : String → Option J) (env : HttpEnv)
    (payload : LoosePayload) :
    (env.hasApiKey = false → call_bedrock_claude parse env = .ok none) ∧
    (env.transportOk = false → call_bedrock_claude parse env = .ok none) ∧
    (env.statusOk = false → call_bedrock_claude parse env = .ok none) ∧
    (env.body = none → call_bedrock_claude parse env = .ok none) ∧
    (∀ d, env.body = some d → extract_content d = none →
      call_bedrock_claude parse env = .ok none) ∧
    (∀ d s, env.body = some d → extract_content d = some (J.str s) →
      parse s = none → call_bedrock_claude parse env = .ok none) ∧
    (call_bedrock_claude parse env = .ok none →
      completeAssessment payload (call_bedrock_claude parse env)
        = .ok (.inr (get_fallback_response payload), true)) ∧
    (∀ (prev : StoredResult) (r : J),
      retryAssessment prev (.ok (some r)) = .ok (.inl r, false)) := by
  refine ⟨?_, ?_, ?_, ?_, ?_, ?_, ?_, ?_⟩
  · intro h; simp [call_bedrock_claude, bedrock_http_call, h]
  · intro h
    cases henv : env.hasApiKey <;>
      simp [call_bedrock_claude, bedrock_http_call, h, henv]
  · intro h
    cases h1 : env.hasApiKey <;> cases h2 : env.transportOk <;>
      simp [call_bedrock_claude, bedrock_http_call, h, h1, h2]
  · intro h
    cases h1 : env.hasApiKey <;> cases h2 : env.transportOk <;>
      cases h3 : env.statusOk <;>
      simp [call_bedrock_claude, bedrock_http_call, h, h1, h2, h3]
  · intro d hd he
    cases h1 : env.hasApiKey <;> cases h2 : env.transportOk <;>
      cases h3 : env.statusOk <;>
      simp [call_bedrock_claude, bedrock_http_call, hd, he, h1, h2, h3]
  · intro d s hd he hp
    cases h1 : env.hasApiKey <;> cases h2 : env.transportOk <;>
      cases h3 : env.statusOk <;>
      simp [call_bedrock_claude, bedrock_http_call, pyJsonLoads, hd, he, hp,
        h1, h2, h3]
  · intro h
    rw [h]
    rfl
  · intro prev r
    rfl

/-- Witness for C3: a missing API key stores the fallback with the flag set,
and a successful retry replaces it and clears the flag. -/
theorem claim_C3_witness :
    completeAssessment demoLoosePayload
      (call_bedrock_claude (fun _ => none) ⟨false, true, true, none⟩)
      = .ok (.inr (get_fallback_response demoLoosePayload), true) ∧
    retryAssessment (.inr (get_fallback_response demoLoosePayload), true)
      (.ok (some (J.str "ok"))) = .ok (.inl (J.str "ok"), false) := by
  have h := claim_C3_fallback_contract (fun _ => none)
    ⟨false, true, true, none⟩ demoLoosePayload
  exact ⟨h.2.2.2.2.2.2.1 (h.1 rfl), h.2.2.2.2.2.2.2 _ _⟩

/-! ## Claim C8 -/

/-- C8 counterexample: with `user_response` present as the EMPTY string, the
salvage expression `str(user_resp_raw) or "Thank you..."` discards it: the
greeting becomes the default text, not the string verbatim. -/
theorem claim_C8_counterexample :
    extract_greeting_src [("user_response", J.str "")] = J.str default_greeting ∧
    default_greeting ≠ "" := by
  exact ⟨rfl, by decide⟩

/-- C8 (amended): when a successfully parsed reply has `user_response`
present as a plain NON-EMPTY string, the string is salvaged verbatim as the
greeting text and `support_links` degrades to the empty list (an empty
string instead falls back to the default greeting); and in any reply with a
well-formed `support_links` array, each entry that is not a mapping is
skipped individually — exactly the mapping entries are rendered, in order.
No exception propagates: the extraction functions are total. -/
theorem claim_C8_string_user_response (fields : List (String × J)) (s : String)
    (hs : s ≠ "") (hur : alookup fields "user_response" = some (J.str s)) :
    extract_greeting_src fields = J.str s ∧
    extract_support_links fields = [] ∧
    rendered_links fields = [] ∧
    (∀ (fields2 : List (String × J)) (ur : List (String × J)) (xs : List J),
       alookup fields2 "user_response" = some (J.obj ur) →
       alookup ur "support_links" = some (J.arr xs) →
       rendered_links fields2 = xs.filterMap jAsObj) := by
  refine ⟨?_, ?_, ?_, ?_⟩
  · simp [extract_greeting_src, hur, pyStr, hs]
  · simp [extract_support_links, hur]
  · simp [rendered_links, extract_support_links, hur]
  · intro fields2 ur xs h1 h2
    simp [rendered_links, extract_support_links, h1, h2]

/-- Witness for C8: a concrete reply whose `user_response` is the plain
string "hello", and a concrete mixed support-links array. -/
theorem claim_C8_witness :
    extract_greeting_src [("user_response", J.str "hello")] = J.str "hello" ∧
    extract_support_links [("user_response", J.str "hello")] = [] ∧
    rendered_links
      [("user_response", J.obj [("support_links",
         J.arr [J.obj [("name", J.str "a")], J.num 7, J.obj []])])]
      = [[("name", J.str "a")], []] := by
  have h := claim_C8_string_user_response [("user_response", J.str "hello")]
    "hello" (by decide) rfl
  refine ⟨h.1, h.2.1, ?_⟩
  have h4 := h.2.2.2 [("user_response", J.obj [("support_links",
    J.arr [J.obj [("name", J.str "a")], J.num 7, J.obj []])])]
    [("support_links", J.arr [J.obj [("name", J.str "a")], J.num 7, J.obj []])]
    [J.obj [("name", J.str "a")], J.num 7, J.obj []] rfl rfl
  rw [h4]
  rfl
